import Mathlib

/-!
Verification development for the ai-collab collaboration workflow engine
(`src/workflow.py`).  The Python source is shallowly embedded: pure helpers
become Lean functions, the mutable per-run attributes of
`CollaborationWorkflow` become an explicit `RunState` threaded through the
code, Python `int` becomes `Int`/`Nat` and Python `float` becomes `Rat`.
Console rendering, file persistence (`_save_result`) and wall-clock
timestamps are omitted: they do not influence any value the claims mention.
-/

namespace AiCollab

/-- Phase enumeration, from `WorkflowPhase` in workflow.py. -/
inductive WorkflowPhase where
  | planning
  | implementation
  | review
  | approved
deriving DecidableEq

/-- One conversation turn, from the `ConversationTurn` dataclass.  The
`timestamp` field (wall-clock `datetime.now()`) is omitted from the
embedding; no claim concerns it. -/
structure ConversationTurn where
  role : String
  content : String
  phase : WorkflowPhase
deriving DecidableEq

/-- Result record, from the `WorkflowResult` dataclass. -/
structure WorkflowResult where
  success : Bool
  final_output : String
  conversation_history : List ConversationTurn
  iterations : Nat
  phase : WorkflowPhase
  total_tokens : Nat
  total_cost : Rat
  stopped_reason : String

/-- An agent backend, from `AIClient` in ai_clients.py.  Every call site in
workflow.py passes exactly one user message, so `chat` takes the content of
that message together with the system prompt.  `provider` and `model` are
the attributes read by `_track_usage` via `getattr`. -/
structure AIClient where
  chat : String → String → String
  provider : String
  model : String

/-- Modelled from the spec: the prompt templates (`DEVELOPER_PLAN_PROMPT`,
`MANAGER_PLANNING_PROMPT`, ...) are imported from `prompts.py`, which is not
part of the sources; the spec treats prompt construction as an external
collaborator that merely supplies a prompt string.  Each field stands for
one imported template (or its `.format` closure) used by workflow.py. -/
structure Prompts where
  developer_system : String
  manager_system : String
  developer_plan : String → String
  developer_implement : String → String → String
  developer_revise : String → String → String → String
  manager_planning : String → String → String
  manager_review : String → String → String → String

/-- The four budget-preset fields resolved by `_apply_budget_mode`. -/
structure ResolvedBudget where
  max_iterations : Int
  max_tokens : Int
  max_cost : Rat
  checkpoint_interval : Int
deriving DecidableEq

/-- The preset table of `_apply_budget_mode`, including the
`presets.get(mode, presets["balanced"])` fallback for unknown modes. -/
def presets (mode : String) : ResolvedBudget :=
  if mode = ("economy") then ⟨5, 30000, 1, 3⟩
  else if mode = ("balanced") then ⟨10, 50000, 2, 5⟩
  else if mode = ("quality") then ⟨15, 100000, 5, 7⟩
  else ⟨10, 50000, 2, 5⟩

/-- Embedding of `_apply_budget_mode`.  In the Python constructor
`max_iterations` defaults to `10` and the other three override parameters
default to `None`; the method keeps an override exactly when it differs
from that default (`max_iter if max_iter != 10 else preset[...]`,
`x if x is not None else preset[...]`). -/
def apply_budget_mode (mode : String) (max_iter : Int) (max_tok : Option Int)
    (max_c : Option Rat) (checkpoint : Option Int) : ResolvedBudget :=
  let preset := presets mode
  { max_iterations := if max_iter ≠ 10 then max_iter else preset.max_iterations
    max_tokens := max_tok.getD preset.max_tokens
    max_cost := max_c.getD preset.max_cost
    checkpoint_interval := checkpoint.getD preset.checkpoint_interval }

/-- The workflow instance after `__init__`: the two clients, the resolved
budget fields, the stagnation parameters, the checkpoint answer supplied by
the console (`Confirm.ask`, an external collaborator, modelled as a
function of the iteration number) and the imported prompt templates. -/
structure Workflow where
  manager : AIClient
  developer : AIClient
  max_iterations : Int
  max_tokens : Int
  max_cost : Rat
  checkpoint_interval : Int
  max_no_progress : Nat
  early_stop_similarity : Rat
  confirm : Nat → Bool
  prompts : Prompts

/-- Embedding of `CollaborationWorkflow.__init__` (clients, budget-mode
resolution and the stagnation parameters; console/output-dir plumbing is
presentation-only and omitted). -/
def mkWorkflow (manager_client developer_client : AIClient) (max_iterations : Int)
    (max_tokens : Option Int) (max_cost : Option Rat) (checkpoint_interval : Option Int)
    (max_no_progress : Nat) (early_stop_similarity : Rat) (budget_mode : String)
    (confirm : Nat → Bool) (prompts : Prompts) : Workflow :=
  let rb := apply_budget_mode budget_mode max_iterations max_tokens max_cost checkpoint_interval
  { manager := manager_client
    developer := developer_client
    max_iterations := rb.max_iterations
    max_tokens := rb.max_tokens
    max_cost := rb.max_cost
    checkpoint_interval := rb.checkpoint_interval
    max_no_progress := max_no_progress
    early_stop_similarity := early_stop_similarity
    confirm := confirm
    prompts := prompts }

/-- The mutable per-run attributes of the workflow object
(`total_tokens`, `total_cost`, `no_progress_count`,
`previous_submission_text`, `conversation_history`). -/
structure RunState where
  total_tokens : Nat
  total_cost : Rat
  no_progress_count : Nat
  previous_submission_text : Option String
  history : List ConversationTurn
deriving DecidableEq

/-- The reset state installed at the top of every run method. -/
def initialRunState : RunState :=
  { total_tokens := 0, total_cost := 0, no_progress_count := 0
    previous_submission_text := none, history := [] }

/-- Embedding of `_estimate_tokens`: `len(text) // 4`. -/
def estimate_tokens (text : String) : Nat :=
  text.length / 4

/-- Rational addition in the explicit `mkRat` cross-multiplication form.
The kernel cannot reduce the builtin `Rat.add` (it is compiler-implemented),
so the embedding uses this equal function; `ratAdd_eq` proves it is exactly
`Rat` addition. -/
def ratAdd (a b : Rat) : Rat :=
  mkRat (a.num * b.den + b.num * a.den) (a.den * b.den)

/-- Rational multiplication in explicit `mkRat` form; `ratMul_eq` proves it
is exactly `Rat` multiplication. -/
def ratMul (a b : Rat) : Rat :=
  mkRat (a.num * b.num) (a.den * b.den)

/-- Embedding of `_estimate_cost` with its `cost_map` rate table and the
default rate `2.0` for unknown (provider, model) pairs:
`(tokens / 1_000_000) * rate` (see `estimate_cost_div_form`). -/
def estimate_cost (tokens : Nat) (provider model : String) : Rat :=
  let rate : Rat :=
    if provider = ("openai") then
      if model = ("gpt-4o") then mkRat 5 2
      else if model = ("gpt-5.1-codex-mini") then 1
      else if model = ("o1-mini") then 3
      else 2
    else if provider = ("anthropic") then
      if model = ("claude-sonnet-4-20250514") then 3
      else if model = ("claude-opus-4-20250514") then 15
      else 2
    else 2
  ratMul (mkRat (tokens : Int) 1000000) rate

/-- Embedding of `_track_usage`: add the token estimate of `text` and the
corresponding cost for the client's provider/model to the running totals. -/
def track_usage (st : RunState) (text : String) (client : AIClient) : RunState :=
  let tokens := estimate_tokens text
  { st with
      total_tokens := st.total_tokens + tokens
      total_cost := ratAdd st.total_cost (estimate_cost tokens client.provider client.model) }

/-- Embedding of `_add_turn`: append one turn to the conversation history
(display is presentation-only). -/
def add_turn (st : RunState) (role content : String) (phase : WorkflowPhase) : RunState :=
  { st with history := st.history ++ [{ role := role, content := content, phase := phase }] }

/-- ASCII uppercasing of a string, embedding Python's `str.upper()` on the
character range the program ever inspects (the approval marker is ASCII). -/
def upper (s : String) : String :=
  String.mk (s.data.map Char.toUpper)

/-- Embedding of `_check_approval`: `"[APPROVED]" in response.upper()`,
i.e. substring containment in the uppercased reviewer text. -/
def check_approval (response : String) : Bool :=
  decide (("[APPROVED]").data <:+: (upper response).data)

/-- Embedding of `_check_budget_limits`: a zero (falsy) limit disables the
check; tokens are tested before cost. -/
def check_budget_limits (wf : Workflow) (st : RunState) : Bool × String :=
  if wf.max_tokens ≠ 0 ∧ wf.max_tokens ≤ (st.total_tokens : Int) then (true, ("max_tokens"))
  else if wf.max_cost ≠ 0 ∧ wf.max_cost ≤ st.total_cost then (true, ("max_cost"))
  else (false, (""))

/-- Embedding of `_user_checkpoint`: the external continue/stop decision is
consulted only when `checkpoint_interval` is truthy and divides the
iteration counter; otherwise the workflow continues. -/
def user_checkpoint (wf : Workflow) (iterations : Nat) : Bool :=
  if wf.checkpoint_interval ≠ 0 ∧ (iterations : Int) % wf.checkpoint_interval = 0 then
    wf.confirm iterations
  else true

/-- A candidate matching block `(i, j, size)` as manipulated by
`difflib.SequenceMatcher.find_longest_match`. -/
structure LMatch where
  mi : Nat
  mj : Nat
  msize : Nat
deriving DecidableEq

/-- Index table of the second sequence (`b2j` before autojunk removal):
all positions of `c` in `b`, in ascending order. -/
def b2j_all (b : List Char) (c : Char) : List Nat :=
  (List.range b.length).filter (fun j => decide (b.getD j (Char.ofNat 0) = c))

/-- The autojunk-popular elements of `b` (computed by `__chain_b`): when
`b` has at least 200 elements, every element occurring more than
`len(b) // 100 + 1` times is dropped from `b2j`. -/
def bpopular (b : List Char) (c : Char) : Bool :=
  decide (200 ≤ b.length) && decide (b.length / 100 + 1 < (b2j_all b c).length)

/-- The `b2j` table actually consulted by `find_longest_match` (popular
elements removed; the junk table is empty because the workflow constructs
`SequenceMatcher(None, text1, text2)`). -/
def b2j (b : List Char) (c : Char) : List Nat :=
  if bpopular b c then [] else b2j_all b c

/-- One row of the dynamic program inside `find_longest_match`: for fixed
`i`, walk the (ascending, range-restricted) occurrence list of `a[i]` in
`b`, building `newj2len` from the previous row `j2len` and updating the
best block on strict improvement, exactly as the Python inner `for j`
loop does. -/
def flm_row (j2len : Nat → Nat) (i : Nat) (js : List Nat)
    (start : (Nat → Nat) × LMatch) : (Nat → Nat) × LMatch :=
  js.foldl
    (fun acc j =>
      let k := (if j = 0 then 0 else j2len (j - 1)) + 1
      let nj : Nat → Nat := fun x => if x = j then k else acc.1 x
      let best := if acc.2.msize < k then LMatch.mk (i + 1 - k) (j + 1 - k) k else acc.2
      (nj, best))
    start

/-- The full dynamic program of `find_longest_match` before the extension
loops: iterate the rows `i ∈ [alo, ahi)`; the `continue`/`break` guards of
the inner loop restrict `j` to `[blo, bhi)` (the occurrence lists are
ascending, so the `break` removes exactly the tail `j ≥ bhi`).  `k` never
exceeds `i + 1` or `j + 1`, so the `Nat` forms `i + 1 - k`, `j + 1 - k`
agree with Python's `i-k+1`, `j-k+1`. -/
def flm_outer (a b : List Char) (alo ahi blo bhi : Nat) : LMatch :=
  ((List.range' alo (ahi - alo)).foldl
    (fun (acc : (Nat → Nat) × LMatch) i =>
      let c := a.getD i (Char.ofNat 0)
      let js := (b2j b c).filter (fun j => decide (blo ≤ j) && decide (j < bhi))
      flm_row acc.1 i js ((fun _ => 0), acc.2))
    ((fun _ => 0), LMatch.mk alo blo 0)).2

/-- The first extension loop of `find_longest_match`: grow the block
leftwards over equal, non-junk elements (the junk set is empty here). -/
def extend_back (a b : List Char) (alo blo : Nat) : Nat → LMatch → LMatch
  | 0, m => m
  | fuel + 1, m =>
    if alo < m.mi ∧ blo < m.mj ∧
        a.getD (m.mi - 1) (Char.ofNat 0) = b.getD (m.mj - 1) (Char.ofNat 0) then
      extend_back a b alo blo fuel (LMatch.mk (m.mi - 1) (m.mj - 1) (m.msize + 1))
    else m

/-- The second extension loop of `find_longest_match`: grow the block
rightwards over equal, non-junk elements. -/
def extend_fwd (a b : List Char) (ahi bhi : Nat) : Nat → LMatch → LMatch
  | 0, m => m
  | fuel + 1, m =>
    if m.mi + m.msize < ahi ∧ m.mj + m.msize < bhi ∧
        a.getD (m.mi + m.msize) (Char.ofNat 0) = b.getD (m.mj + m.msize) (Char.ofNat 0) then
      extend_fwd a b ahi bhi fuel (LMatch.mk m.mi m.mj (m.msize + 1))
    else m

/-- Embedding of `SequenceMatcher.find_longest_match` for the junk-free
matcher the workflow builds.  The two junk-extension loops of the Python
source are omitted: their guards require a junk element and the junk set is
empty.  The fuel `ahi + bhi` bounds both extension loops (each step moves
an index inside `[0, ahi)` resp. `[0, bhi)`). -/
def find_longest_match (a b : List Char) (alo ahi blo bhi : Nat) : LMatch :=
  extend_fwd a b ahi bhi (ahi + bhi)
    (extend_back a b alo blo (ahi + bhi) (flm_outer a b alo ahi blo bhi))

/-- Total size of all matching blocks, i.e. the sum of the `size` fields
produced by `get_matching_blocks`: recursively split around the longest
match.  Each recursive region is strictly smaller, so fuel
`ahi + bhi + 1` (from the top-level call) suffices. -/
def matches_sum (a b : List Char) : Nat → Nat → Nat → Nat → Nat → Nat
  | 0, _, _, _, _ => 0
  | fuel + 1, alo, ahi, blo, bhi =>
    let m := find_longest_match a b alo ahi blo bhi
    if m.msize = 0 then 0
    else
      m.msize
        + (if alo < m.mi ∧ blo < m.mj then matches_sum a b fuel alo m.mi blo m.mj else 0)
        + (if m.mi + m.msize < ahi ∧ m.mj + m.msize < bhi then
            matches_sum a b fuel (m.mi + m.msize) ahi (m.mj + m.msize) bhi
          else 0)

/-- Embedding of `SequenceMatcher.ratio()`:
`2 * matches / (len(a) + len(b))`, and `1.0` for two empty sequences. -/
def ratio (a b : List Char) : Rat :=
  let m := matches_sum a b (a.length + b.length + 1) 0 a.length 0 b.length
  let total := a.length + b.length
  if total = 0 then 1 else mkRat (2 * (m : Int)) total

/-- Embedding of `_calculate_similarity`: `0.0` when either text is empty
(falsy), otherwise the `SequenceMatcher` ratio of the two texts. -/
def calculate_similarity (text1 text2 : String) : Rat :=
  if text1 = ("") ∨ text2 = ("") then 0 else ratio text1.data text2.data

/-- Embedding of `_check_progress`: on the first call store the submission
and report progress; afterwards compare with the stored submission,
increment or reset the stagnation counter, store the new submission, and
report progress while the counter is below `max_no_progress`. -/
def check_progress (wf : Workflow) (st : RunState) (current_submission : String) :
    Bool × RunState :=
  match st.previous_submission_text with
  | none => (true, { st with previous_submission_text := some current_submission })
  | some prev =>
    let similarity := calculate_similarity prev current_submission
    let cnt := if wf.early_stop_similarity ≤ similarity then st.no_progress_count + 1 else 0
    (decide (cnt < wf.max_no_progress),
      { st with
          no_progress_count := cnt
          previous_submission_text := some current_submission })

/-- The tuple of local variables live when a run method leaves its `while`
loop: the iteration counter, the current phase, the stop reason (`""` when
the loop exhausted `max_iterations`), the artifact variable that becomes
`final_output`, and the mutable run state. -/
structure LoopExit where
  iterations : Nat
  phase : WorkflowPhase
  reason : String
  final : String
  st : RunState

/-- Wrap a loop exit into a `WorkflowResult` exactly as the tail of each
run method does: empty reason means `max_iterations`, success is
`current_phase == WorkflowPhase.APPROVED`. -/
def finish (e : LoopExit) : WorkflowResult :=
  { success := decide (e.phase = WorkflowPhase.approved)
    final_output := e.final
    conversation_history := e.st.history
    iterations := e.iterations
    phase := e.phase
    total_tokens := e.st.total_tokens
    total_cost := e.st.total_cost
    stopped_reason := if e.reason = ("") then ("max_iterations") else e.reason }

/-- The revision prompt literal of `run_planning` (an f-string in
workflow.py). -/
def planning_revise_text (manager_feedback previous_plan : String) : String :=
  ("PM 피드백을 반영하여 계획을 수정해주세요:\n\n피드백:\n") ++ manager_feedback
    ++ ("\n\n이전 계획:\n") ++ previous_plan

/-- The `while` loop of `run_development` (lines 272-334), as structural
recursion on the remaining iteration budget.  Arguments mirror the local
variables `iterations`, `current_phase`, `manager_feedback`,
`previous_submission`. -/
def development_loop (wf : Workflow) (requirements : String) :
    Nat → Nat → WorkflowPhase → String → String → RunState → LoopExit
  | 0, iterations, phase, _manager_feedback, previous_submission, st =>
    ⟨iterations, phase, (""), previous_submission, st⟩
  | fuel + 1, iterations0, phase, manager_feedback, previous_submission, st =>
    let iterations := iterations0 + 1
    let bl := check_budget_limits wf st
    if bl.1 then ⟨iterations, phase, bl.2, previous_submission, st⟩
    else if ¬ user_checkpoint wf iterations then
      ⟨iterations, phase, ("user_stopped"), previous_submission, st⟩
    else
      let impl_prompt :=
        if iterations = 1 then wf.prompts.developer_implement requirements manager_feedback
        else wf.prompts.developer_revise requirements previous_submission manager_feedback
      let developer_response := wf.developer.chat impl_prompt wf.prompts.developer_system
      let st1 := add_turn (track_usage st (impl_prompt ++ developer_response) wf.developer)
        ("developer") developer_response phase
      let pr := check_progress wf st1 developer_response
      if ¬ pr.1 then ⟨iterations, phase, ("no_progress"), developer_response, pr.2⟩
      else
        let review_prompt :=
          wf.prompts.manager_review ("implementation") requirements developer_response
        let manager_feedback2 := wf.manager.chat review_prompt wf.prompts.manager_system
        let st2 := add_turn (track_usage pr.2 (review_prompt ++ manager_feedback2) wf.manager)
          ("manager") manager_feedback2 WorkflowPhase.review
        if check_approval manager_feedback2 then
          ⟨iterations, WorkflowPhase.approved, ("approved"), developer_response, st2⟩
        else
          development_loop wf requirements fuel iterations WorkflowPhase.implementation
            manager_feedback2 developer_response st2

/-- Embedding of `run_development`: the unconditional plan / plan-review
exchange, then the implementation loop.  (`_save_result` is a file write
and omitted.) -/
def run_development (wf : Workflow) (requirements : String) : WorkflowResult :=
  let plan_prompt := wf.prompts.developer_plan requirements
  let developer_plan := wf.developer.chat plan_prompt wf.prompts.developer_system
  let st1 := add_turn (track_usage initialRunState (plan_prompt ++ developer_plan) wf.developer)
    ("developer") developer_plan WorkflowPhase.planning
  let review_prompt := wf.prompts.manager_planning requirements developer_plan
  let manager_feedback := wf.manager.chat review_prompt wf.prompts.manager_system
  let st2 := add_turn (track_usage st1 (review_prompt ++ manager_feedback) wf.manager)
    ("manager") manager_feedback WorkflowPhase.planning
  finish (development_loop wf requirements wf.max_iterations.toNat 0
    WorkflowPhase.implementation manager_feedback developer_plan st2)

/-- The `while` loop of `run_review` (lines 396-441): the reviewer
re-reviews first, then (absent approval) the producer revises and the
progress check runs; `previous_submission` is only updated after the
progress check. -/
def review_loop (wf : Workflow) : Nat → Nat → String → RunState → LoopExit
  | 0, iterations, previous_submission, st =>
    ⟨iterations, WorkflowPhase.review, (""), previous_submission, st⟩
  | fuel + 1, iterations0, previous_submission, st =>
    let iterations := iterations0 + 1
    let bl := check_budget_limits wf st
    if bl.1 then ⟨iterations, WorkflowPhase.review, bl.2, previous_submission, st⟩
    else if ¬ user_checkpoint wf iterations then
      ⟨iterations, WorkflowPhase.review, ("user_stopped"), previous_submission, st⟩
    else
      let review_prompt := ("개발자가 수정한 코드입니다:\n\n") ++ previous_submission
        ++ ("\n\n다시 검토해주세요.")
      let final_review := wf.manager.chat review_prompt wf.prompts.manager_system
      let st1 := add_turn (track_usage st (review_prompt ++ final_review) wf.manager)
        ("manager") final_review WorkflowPhase.review
      if check_approval final_review then
        ⟨iterations, WorkflowPhase.approved, ("approved"), previous_submission, st1⟩
      else
        let dev_revise := ("PM의 추가 피드백:\n\n") ++ final_review ++ ("\n\n이전 제출물:\n")
          ++ previous_submission ++ ("\n\n다시 수정해주세요.")
        let developer_response := wf.developer.chat dev_revise wf.prompts.developer_system
        let st2 := add_turn (track_usage st1 (dev_revise ++ developer_response) wf.developer)
          ("developer") developer_response WorkflowPhase.review
        let pr := check_progress wf st2 developer_response
        if ¬ pr.1 then
          ⟨iterations, WorkflowPhase.review, ("no_progress"), previous_submission, pr.2⟩
        else review_loop wf fuel iterations developer_response pr.2

/-- Embedding of `run_review`: the unconditional initial review/revision
exchange (not subject to budget checks), then the re-review loop starting
at `iterations = 1`. -/
def run_review (wf : Workflow) (code context : String) : WorkflowResult :=
  let review_request := ("다음 코드를 리뷰해주세요:\n\n") ++ code
    ++ (if context ≠ ("") then ("\n\n컨텍스트: ") ++ context else (""))
  let manager_review := wf.manager.chat review_request wf.prompts.manager_system
  let st1 := add_turn (track_usage initialRunState (review_request ++ manager_review) wf.manager)
    ("manager") manager_review WorkflowPhase.review
  let dev_prompt := ("PM의 코드 리뷰 피드백입니다:\n\n") ++ manager_review
    ++ ("\n\n원본 코드:\n") ++ code ++ ("\n\n피드백을 반영하여 개선된 코드를 제출해주세요.")
  let developer_response := wf.developer.chat dev_prompt wf.prompts.developer_system
  let st2 := add_turn (track_usage st1 (dev_prompt ++ developer_response) wf.developer)
    ("developer") developer_response WorkflowPhase.review
  finish (review_loop wf (wf.max_iterations - 1).toNat 1 developer_response st2)

/-- The `while` loop of `run_planning` (lines 475-526): the producer
drafts/revises, then the progress check runs, then the reviewer reviews;
`previous_plan` is only updated after the progress check. -/
def planning_loop (wf : Workflow) (project_description : String) :
    Nat → Nat → String → String → RunState → LoopExit
  | 0, iterations, _manager_feedback, previous_plan, st =>
    ⟨iterations, WorkflowPhase.planning, (""), previous_plan, st⟩
  | fuel + 1, iterations0, manager_feedback, previous_plan, st =>
    let iterations := iterations0 + 1
    let bl := check_budget_limits wf st
    if bl.1 then ⟨iterations, WorkflowPhase.planning, bl.2, previous_plan, st⟩
    else if ¬ user_checkpoint wf iterations then
      ⟨iterations, WorkflowPhase.planning, ("user_stopped"), previous_plan, st⟩
    else
      let plan_prompt :=
        if iterations = 1 then wf.prompts.developer_plan project_description
        else planning_revise_text manager_feedback previous_plan
      let developer_plan := wf.developer.chat plan_prompt wf.prompts.developer_system
      let st1 := add_turn (track_usage st (plan_prompt ++ developer_plan) wf.developer)
        ("developer") developer_plan WorkflowPhase.planning
      let pr := check_progress wf st1 developer_plan
      if ¬ pr.1 then ⟨iterations, WorkflowPhase.planning, ("no_progress"), previous_plan, pr.2⟩
      else
        let review_prompt := wf.prompts.manager_planning project_description developer_plan
        let manager_feedback2 := wf.manager.chat review_prompt wf.prompts.manager_system
        let st2 := add_turn (track_usage pr.2 (review_prompt ++ manager_feedback2) wf.manager)
          ("manager") manager_feedback2 WorkflowPhase.planning
        if check_approval manager_feedback2 then
          ⟨iterations, WorkflowPhase.approved, ("approved"), developer_plan, st2⟩
        else planning_loop wf project_description fuel iterations manager_feedback2
          developer_plan st2

/-- Embedding of `run_planning`: a single-phase loop from a freshly reset
state; the initial `manager_feedback` argument is never read on the first
iteration (the Python local is simply unbound until iteration 2). -/
def run_planning (wf : Workflow) (project_description : String) : WorkflowResult :=
  finish (planning_loop wf project_description wf.max_iterations.toNat 0 ("") ("")
    initialRunState)

/-- The `while` loop of `run_documentation` (lines 564-620): like
planning, but the first iteration appends a formatting instruction to the
producer's system prompt, producer turns carry the Implementation phase
and reviewer turns the Review phase. -/
def documentation_loop (wf : Workflow) (topic doc_request : String) :
    Nat → Nat → WorkflowPhase → String → String → RunState → LoopExit
  | 0, iterations, phase, _manager_feedback, previous_doc, st =>
    ⟨iterations, phase, (""), previous_doc, st⟩
  | fuel + 1, iterations0, phase, manager_feedback, previous_doc, st =>
    let iterations := iterations0 + 1
    let bl := check_budget_limits wf st
    if bl.1 then ⟨iterations, phase, bl.2, previous_doc, st⟩
    else if ¬ user_checkpoint wf iterations then
      ⟨iterations, phase, ("user_stopped"), previous_doc, st⟩
    else
      let pd : String × String :=
        if iterations = 1 then
          (doc_request,
            wf.prompts.developer_system ++ ("\n\n문서 작성 시 명확하고 구조화된 형식을 사용하세요."))
        else
          (("PM 피드백을 반영하여 문서를 수정해주세요:\n\n피드백:\n") ++ manager_feedback
            ++ ("\n\n이전 문서:\n") ++ previous_doc,
            wf.prompts.developer_system)
      let developer_doc := wf.developer.chat pd.1 pd.2
      let st1 := add_turn (track_usage st (pd.1 ++ developer_doc) wf.developer)
        ("developer") developer_doc phase
      let pr := check_progress wf st1 developer_doc
      if ¬ pr.1 then ⟨iterations, phase, ("no_progress"), previous_doc, pr.2⟩
      else
        let review_prompt := ("다음 문서를 검토해주세요:\n\n주제: ") ++ topic
          ++ ("\n\n문서:\n") ++ developer_doc
        let manager_feedback2 := wf.manager.chat review_prompt wf.prompts.manager_system
        let st2 := add_turn (track_usage pr.2 (review_prompt ++ manager_feedback2) wf.manager)
          ("manager") manager_feedback2 WorkflowPhase.review
        if check_approval manager_feedback2 then
          ⟨iterations, WorkflowPhase.approved, ("approved"), developer_doc, st2⟩
        else documentation_loop wf topic doc_request fuel iterations
          WorkflowPhase.implementation manager_feedback2 developer_doc st2

/-- Embedding of `run_documentation`. -/
def run_documentation (wf : Workflow) (topic context : String) : WorkflowResult :=
  let doc_request := ("다음 주제에 대한 문서를 작성해주세요: ") ++ topic
    ++ (if context ≠ ("") then ("\n\n참고 컨텍스트:\n") ++ context else (""))
  finish (documentation_loop wf topic doc_request wf.max_iterations.toNat 0
    WorkflowPhase.implementation ("") ("") initialRunState)

/-- Boolean check that the roles of a turn list alternate, starting with
`first`: used to express the per-iteration producer/reviewer ordering
observable on the recorded transcript. -/
def altFrom (first second : String) : List ConversationTurn → Bool
  | [] => true
  | t :: ts => (t.role == first) && altFrom second first ts

/-- Trivial concrete prompt templates for the concrete scenario runs (the
claims' mock backends ignore prompt content or only distinguish the
first-iteration prompt). -/
def trivPrompts : Prompts :=
  { developer_system := ("DEVSYS"), manager_system := ("MGRSYS")
    developer_plan := fun r => ("PLAN ") ++ r
    developer_implement := fun r i => ("IMPL ") ++ r ++ (" ") ++ i
    developer_revise := fun r p f => ("REVISE ") ++ r ++ p ++ f
    manager_planning := fun r p => ("PREVIEW ") ++ r ++ p
    manager_review := fun t r s => ("MREVIEW ") ++ t ++ r ++ s }

/-- A mock backend returning a fixed completion. -/
def constClient (s : String) : AIClient :=
  { chat := fun _ _ => s, provider := ("mock"), model := ("mock") }

/-- Workflow of the planning end-to-end scenario: mock producer always
answers `plan v1`, mock reviewer always answers `needs more detail`,
explicit `max_iterations = 3`, defaults otherwise (balanced mode,
`max_no_progress = 3`, `early_stop_similarity = 0.95`). -/
def c7wf : Workflow :=
  mkWorkflow (constClient ("needs more detail")) (constClient ("plan v1"))
    3 none none none 3 (mkRat 19 20) ("balanced") (fun _ => true) trivPrompts

/-- Mock producer that answers `ab` to the initial planning prompt and
`ac` to every revision prompt. -/
def c3client : AIClient :=
  { chat := fun prompt _ => if prompt = ("PLAN p") then ("ab") else ("ac")
    provider := ("mock"), model := ("mock") }

/-- Workflow exhibiting a `no_progress` stop of `run_planning` whose last
producer submission differs from the returned artifact: budget limits
disabled, `max_no_progress = 1`, similarity threshold `1/2`
(`similarity("ab","ac") = 1/2`). -/
def c3wf : Workflow :=
  mkWorkflow (constClient ("no")) c3client 5 (some 0) (some 0) (some 0)
    1 (mkRat 1 2) ("balanced") (fun _ => true) trivPrompts

/-- Workflow driving `run_development` into a `no_progress` stop: the
producer repeats `xx`, so the second loop iteration stagnates at
similarity `1 ≥ 1/2` with `max_no_progress = 1`. -/
def c3devwf : Workflow :=
  mkWorkflow (constClient ("fb")) (constClient ("xx")) 5 (some 0) (some 0) (some 0)
    1 (mkRat 1 2) ("balanced") (fun _ => true) trivPrompts

/-- Workflow for the `run_review` ordering counterexample: two iterations,
never-approving reviewer, budget and checkpoint disabled. -/
def c2wf : Workflow :=
  mkWorkflow (constClient ("mreply")) (constClient ("dreply")) 2 (some 0) (some 0) (some 0)
    3 (mkRat 19 20) ("balanced") (fun _ => true) trivPrompts

/-- Workflow whose token ceiling is 5, for the budget-gate witness. -/
def c4wfTok : Workflow :=
  mkWorkflow (constClient ("m")) (constClient ("d")) 10 (some 5) (some 1) (some 0)
    3 (mkRat 19 20) ("balanced") (fun _ => true) trivPrompts

/-- Run state that has already consumed 5 tokens (and, cost-wise, nothing). -/
def c4stTok : RunState :=
  { total_tokens := 5, total_cost := 0, no_progress_count := 0
    previous_submission_text := none, history := [] }

/-- Workflow with the token ceiling disabled and a cost ceiling of 1. -/
def c4wfCost : Workflow :=
  mkWorkflow (constClient ("m")) (constClient ("d")) 10 (some 0) (some 1) (some 0)
    3 (mkRat 19 20) ("balanced") (fun _ => true) trivPrompts

/-- Run state whose accumulated cost has reached the ceiling 1. -/
def c4stCost : RunState :=
  { total_tokens := 99, total_cost := 1, no_progress_count := 0
    previous_submission_text := none, history := [] }

/-- Workflow used by the check-progress witness. -/
def c5wf : Workflow :=
  mkWorkflow (constClient ("m")) (constClient ("d")) 10 none none none
    3 (mkRat 19 20) ("balanced") (fun _ => true) trivPrompts

/-- Run state with a stored previous submission `ab` and streak 2. -/
def c5st1 : RunState :=
  { total_tokens := 0, total_cost := 0, no_progress_count := 2
    previous_submission_text := some ("ab"), history := [] }

/-- Workflow with both budget ceilings set to zero (disabled) for the
zero-limit witness: two iterations, reviewer never approves. -/
def c10wf : Workflow :=
  mkWorkflow (constClient ("mr")) (constClient ("dr")) 2 (some 0) (some 0) (some 0)
    3 (mkRat 19 20) ("balanced") (fun _ => true) trivPrompts

lemma ratAdd_eq (a b : Rat) : ratAdd a b = a + b :=
  (Rat.add_def' a b).symm

lemma ratMul_eq (a b : Rat) : ratMul a b = a * b := by
  rw [ratMul, Rat.mul_def]
  unfold mkRat
  rw [dif_neg (Nat.mul_ne_zero a.den_nz b.den_nz)]

lemma estimate_cost_div_form (tokens : Nat) (r : Rat) :
    ratMul (mkRat (tokens : Int) 1000000) r = ((tokens : Rat) / 1000000) * r := by
  rw [ratMul_eq]
  congr 1
  rw [Rat.mkRat_eq_divInt, Rat.divInt_eq_div]
  push_cast
  ring

lemma ratio_div_form (a b : List Char) (h : a.length + b.length ≠ 0) :
    ratio a b
      = (2 * ((matches_sum a b (a.length + b.length + 1) 0 a.length 0 b.length : Nat) : Rat))
        / ((a.length + b.length : Nat) : Rat) := by
  unfold ratio
  simp only [if_neg h]
  rw [Rat.mkRat_eq_divInt, Rat.divInt_eq_div]
  push_cast
  ring

lemma check_budget_limits_zero (wf : Workflow) (st : RunState)
    (h1 : wf.max_tokens = 0) (h2 : wf.max_cost = 0) :
    check_budget_limits wf st = (false, ("")) := by
  simp [check_budget_limits, h1, h2]

lemma check_budget_limits_reason (wf : Workflow) (st : RunState) :
    (check_budget_limits wf st).2 = ("max_tokens")
    ∨ (check_budget_limits wf st).2 = ("max_cost")
    ∨ (check_budget_limits wf st).2 = ("") := by
  unfold check_budget_limits
  split
  · simp
  · split <;> simp

lemma check_progress_history (wf : Workflow) (st : RunState) (c : String) :
    (check_progress wf st c).2.history = st.history := by
  cases hp : st.previous_submission_text <;> simp [check_progress, hp]

lemma getLast?_append_singleton {α : Type} (l : List α) (a : α) :
    (l ++ [a]).getLast? = some a := by
  induction l with
  | nil => rfl
  | cons x xs ihx =>
    cases xs with
    | nil => rfl
    | cons y ys =>
      rw [List.cons_append, List.cons_append, List.getLast?_cons_cons]
      rw [List.cons_append] at ihx
      exact ihx

lemma planning_loop_spec (wf : Workflow) (project : String) :
    ∀ (fuel iterations : Nat) (mfb prev : String) (st : RunState),
      ((planning_loop wf project fuel iterations mfb prev st).phase = WorkflowPhase.approved
        ↔ (planning_loop wf project fuel iterations mfb prev st).reason = ("approved"))
      ∧ (wf.max_tokens = 0 → wf.max_cost = 0 →
          ((planning_loop wf project fuel iterations mfb prev st).reason = ("")
            ∨ (planning_loop wf project fuel iterations mfb prev st).reason = ("approved")
            ∨ (planning_loop wf project fuel iterations mfb prev st).reason = ("no_progress")
            ∨ (planning_loop wf project fuel iterations mfb prev st).reason = ("user_stopped")))
      ∧ ∃ ext, (planning_loop wf project fuel iterations mfb prev st).st.history
            = st.history ++ ext
          ∧ altFrom ("developer") ("manager") ext = true := by
  intro fuel
  induction fuel with
  | zero =>
    intro it mfb prev st
    exact ⟨by simp [planning_loop], fun _ _ => Or.inl (by simp [planning_loop]),
      ⟨[], by simp [planning_loop], rfl⟩⟩
  | succ n ih =>
    intro it mfb prev st
    simp only [planning_loop]
    split
    · rename_i hb
      refine ⟨?_, ?_, ⟨[], by simp, rfl⟩⟩
      · rcases check_budget_limits_reason wf st with h | h | h <;> simp [h]
      · intro h1 h2
        rw [check_budget_limits_zero wf st h1 h2] at hb
        simp at hb
    · split
      · exact ⟨by simp, fun _ _ => by simp, ⟨[], by simp, rfl⟩⟩
      · split
        all_goals (
          split
          · exact ⟨by simp, fun _ _ => by simp,
              ⟨_, by simp [check_progress_history, add_turn, track_usage]; rfl, by simp [altFrom]⟩⟩
          · split
            · exact ⟨by simp, fun _ _ => by simp,
                ⟨_, by simp [check_progress_history, add_turn, track_usage, List.append_assoc]; rfl,
                  by simp [altFrom]⟩⟩
            · refine ⟨(ih _ _ _ _).1, (ih _ _ _ _).2.1, ?_⟩
              obtain ⟨ext, hh, halt⟩ := (ih _ _ _ _).2.2
              exact ⟨_, by rw [hh]; simp [add_turn, track_usage, check_progress_history,
                  List.append_assoc]; rfl, by simp [altFrom, halt]⟩)

lemma development_loop_spec (wf : Workflow) (requirements : String) :
    ∀ (fuel iterations : Nat) (phase : WorkflowPhase) (mfb prev : String) (st : RunState),
      (phase ≠ WorkflowPhase.approved →
        ((development_loop wf requirements fuel iterations phase mfb prev st).phase
            = WorkflowPhase.approved
          ↔ (development_loop wf requirements fuel iterations phase mfb prev st).reason
            = ("approved")))
      ∧ (wf.max_tokens = 0 → wf.max_cost = 0 →
          ((development_loop wf requirements fuel iterations phase mfb prev st).reason = ("")
            ∨ (development_loop wf requirements fuel iterations phase mfb prev st).reason
              = ("approved")
            ∨ (development_loop wf requirements fuel iterations phase mfb prev st).reason
              = ("no_progress")
            ∨ (development_loop wf requirements fuel iterations phase mfb prev st).reason
              = ("user_stopped")))
      ∧ (∃ ext, (development_loop wf requirements fuel iterations phase mfb prev st).st.history
            = st.history ++ ext
          ∧ altFrom ("developer") ("manager") ext = true)
      ∧ ((development_loop wf requirements fuel iterations phase mfb prev st).reason
            = ("no_progress") →
          ∃ t, (development_loop wf requirements fuel iterations phase mfb prev st).st.history.getLast?
              = some t
            ∧ t.role = ("developer")
            ∧ (development_loop wf requirements fuel iterations phase mfb prev st).final
              = t.content) := by
  intro fuel
  induction fuel with
  | zero =>
    intro it ph mfb prev st
    exact ⟨fun hph => by simp [development_loop, hph],
      fun _ _ => Or.inl (by simp [development_loop]),
      ⟨[], by simp [development_loop], rfl⟩,
      fun h => by simp [development_loop] at h⟩
  | succ n ih =>
    intro it ph mfb prev st
    simp only [development_loop]
    split
    · rename_i hb
      refine ⟨?_, ?_, ⟨[], by simp, rfl⟩, ?_⟩
      · intro hph
        rcases check_budget_limits_reason wf st with h | h | h <;> simp [h, hph]
      · intro h1 h2
        rw [check_budget_limits_zero wf st h1 h2] at hb
        simp at hb
      · rcases check_budget_limits_reason wf st with h | h | h <;> simp [h]
    · split
      · exact ⟨fun hph => by simp [hph], fun _ _ => by simp, ⟨[], by simp, rfl⟩,
          fun h => by simp at h⟩
      · split
        all_goals (
          split
          · refine ⟨fun hph => by simp [hph], fun _ _ => by simp,
              ⟨_, by simp [check_progress_history, add_turn, track_usage]; rfl,
                by simp [altFrom]⟩, ?_⟩
            intro _
            exact ⟨_, (by
              simp only [check_progress_history, add_turn, track_usage]
              exact getLast?_append_singleton _ _), rfl, rfl⟩
          · split
            · exact ⟨fun _ => by simp, fun _ _ => by simp,
                ⟨_, by simp [check_progress_history, add_turn, track_usage,
                  List.append_assoc]; rfl, by simp [altFrom]⟩,
                fun h => by simp at h⟩
            · refine ⟨fun _ => (ih _ _ _ _ _).1 (by decide), (ih _ _ _ _ _).2.1, ?_,
                (ih _ _ _ _ _).2.2.2⟩
              obtain ⟨ext, hh, halt⟩ := (ih _ _ _ _ _).2.2.1
              exact ⟨_, by rw [hh]; simp [add_turn, track_usage, check_progress_history,
                List.append_assoc]; rfl, by simp [altFrom, halt]⟩)

lemma review_loop_spec (wf : Workflow) :
    ∀ (fuel iterations : Nat) (prev : String) (st : RunState),
      ((review_loop wf fuel iterations prev st).phase = WorkflowPhase.approved
        ↔ (review_loop wf fuel iterations prev st).reason = ("approved"))
      ∧ (wf.max_tokens = 0 → wf.max_cost = 0 →
          ((review_loop wf fuel iterations prev st).reason = ("")
            ∨ (review_loop wf fuel iterations prev st).reason = ("approved")
            ∨ (review_loop wf fuel iterations prev st).reason = ("no_progress")
            ∨ (review_loop wf fuel iterations prev st).reason = ("user_stopped")))
      ∧ ∃ ext, (review_loop wf fuel iterations prev st).st.history = st.history ++ ext
          ∧ altFrom ("manager") ("developer") ext = true := by
  intro fuel
  induction fuel with
  | zero =>
    intro it prev st
    exact ⟨by simp [review_loop], fun _ _ => Or.inl (by simp [review_loop]),
      ⟨[], by simp [review_loop], rfl⟩⟩
  | succ n ih =>
    intro it prev st
    simp only [review_loop]
    split
    · rename_i hb
      refine ⟨?_, ?_, ⟨[], by simp, rfl⟩⟩
      · rcases check_budget_limits_reason wf st with h | h | h <;> simp [h]
      · intro h1 h2
        rw [check_budget_limits_zero wf st h1 h2] at hb
        simp at hb
    · split
      · exact ⟨by simp, fun _ _ => by simp, ⟨[], by simp, rfl⟩⟩
      · split
        · exact ⟨by simp, fun _ _ => by simp,
            ⟨_, by simp [add_turn, track_usage]; rfl, by simp [altFrom]⟩⟩
        · split
          · exact ⟨by simp, fun _ _ => by simp,
              ⟨_, by simp [check_progress_history, add_turn, track_usage,
                List.append_assoc]; rfl, by simp [altFrom]⟩⟩
          · refine ⟨(ih _ _ _).1, (ih _ _ _).2.1, ?_⟩
            obtain ⟨ext, hh, halt⟩ := (ih _ _ _).2.2
            exact ⟨_, by rw [hh]; simp [add_turn, track_usage, check_progress_history,
              List.append_assoc]; rfl, by simp [altFrom, halt]⟩

lemma documentation_loop_spec (wf : Workflow) (topic doc_request : String) :
    ∀ (fuel iterations : Nat) (phase : WorkflowPhase) (mfb prev : String) (st : RunState),
      (phase ≠ WorkflowPhase.approved →
        ((documentation_loop wf topic doc_request fuel iterations phase mfb prev st).phase
            = WorkflowPhase.approved
          ↔ (documentation_loop wf topic doc_request fuel iterations phase mfb prev st).reason
            = ("approved")))
      ∧ (wf.max_tokens = 0 → wf.max_cost = 0 →
          ((documentation_loop wf topic doc_request fuel iterations phase mfb prev st).reason
              = ("")
            ∨ (documentation_loop wf topic doc_request fuel iterations phase mfb prev st).reason
              = ("approved")
            ∨ (documentation_loop wf topic doc_request fuel iterations phase mfb prev st).reason
              = ("no_progress")
            ∨ (documentation_loop wf topic doc_request fuel iterations phase mfb prev st).reason
              = ("user_stopped")))
      ∧ ∃ ext, (documentation_loop wf topic doc_request fuel iterations phase mfb prev st).st.history
            = st.history ++ ext
          ∧ altFrom ("developer") ("manager") ext = true := by
  intro fuel
  induction fuel with
  | zero =>
    intro it ph mfb prev st
    exact ⟨fun hph => by simp [documentation_loop, hph],
      fun _ _ => Or.inl (by simp [documentation_loop]),
      ⟨[], by simp [documentation_loop], rfl⟩⟩
  | succ n ih =>
    intro it ph mfb prev st
    simp only [documentation_loop]
    split
    · rename_i hb
      refine ⟨?_, ?_, ⟨[], by simp, rfl⟩⟩
      · intro hph
        rcases check_budget_limits_reason wf st with h | h | h <;> simp [h, hph]
      · intro h1 h2
        rw [check_budget_limits_zero wf st h1 h2] at hb
        simp at hb
    · split
      · exact ⟨fun hph => by simp [hph], fun _ _ => by simp, ⟨[], by simp, rfl⟩⟩
      · split
        all_goals (
          split
          · exact ⟨fun hph => by simp [hph], fun _ _ => by simp,
              ⟨_, by simp [check_progress_history, add_turn, track_usage]; rfl,
                by simp [altFrom]⟩⟩
          · split
            · exact ⟨fun _ => by simp, fun _ _ => by simp,
                ⟨_, by simp [check_progress_history, add_turn, track_usage,
                  List.append_assoc]; rfl, by simp [altFrom]⟩⟩
            · refine ⟨fun _ => (ih _ _ _ _ _).1 (by decide), (ih _ _ _ _ _).2.1, ?_⟩
              obtain ⟨ext, hh, halt⟩ := (ih _ _ _ _ _).2.2
              exact ⟨_, by rw [hh]; simp [add_turn, track_usage, check_progress_history,
                List.append_assoc]; rfl, by simp [altFrom, halt]⟩)

/-- C1, counterexample.  The claim asserts that an explicit override always
wins, including an explicit `maxIterations` of 10; but `_apply_budget_mode`
recognises an override by `max_iter != 10`, so in economy mode the explicit
value 10 is replaced by the preset 5. -/
theorem C1_counterexample :
    (apply_budget_mode ("economy") 10 none none none).max_iterations = 5
    ∧ (apply_budget_mode ("economy") 10 none none none).max_iterations ≠ 10 := by
  constructor <;> decide

/-- C1, amended.  Explicit `maxTokens`, `maxCost` and `checkpointInterval`
always win and omitted values take the mode's preset; an explicit
`maxIterations` wins exactly when it differs from 10, while the value 10
(whether explicit or the omitted default) resolves to the mode preset. -/
theorem C1_amended (mi : Int) (mt : Option Int) (mc : Option Rat) (ci : Option Int)
    (hmi : mi ≠ 10) :
    ((apply_budget_mode ("economy") mi mt mc ci).max_iterations = mi
      ∧ (apply_budget_mode ("balanced") mi mt mc ci).max_iterations = mi
      ∧ (apply_budget_mode ("quality") mi mt mc ci).max_iterations = mi)
    ∧ ((apply_budget_mode ("economy") 10 mt mc ci).max_iterations = 5
      ∧ (apply_budget_mode ("balanced") 10 mt mc ci).max_iterations = 10
      ∧ (apply_budget_mode ("quality") 10 mt mc ci).max_iterations = 15)
    ∧ ((apply_budget_mode ("economy") mi mt mc ci).max_tokens = mt.getD 30000
      ∧ (apply_budget_mode ("balanced") mi mt mc ci).max_tokens = mt.getD 50000
      ∧ (apply_budget_mode ("quality") mi mt mc ci).max_tokens = mt.getD 100000)
    ∧ ((apply_budget_mode ("economy") mi mt mc ci).max_cost = mc.getD 1
      ∧ (apply_budget_mode ("balanced") mi mt mc ci).max_cost = mc.getD 2
      ∧ (apply_budget_mode ("quality") mi mt mc ci).max_cost = mc.getD 5)
    ∧ ((apply_budget_mode ("economy") mi mt mc ci).checkpoint_interval = ci.getD 3
      ∧ (apply_budget_mode ("balanced") mi mt mc ci).checkpoint_interval = ci.getD 5
      ∧ (apply_budget_mode ("quality") mi mt mc ci).checkpoint_interval = ci.getD 7) := by
  simp [apply_budget_mode, presets, hmi]

/-- C1, witness for the amended theorem at mode-typical concrete inputs. -/
theorem C1_amended_witness :
    (apply_budget_mode ("economy") 7 (some 123) (some (mkRat 3 2)) (some 4)).max_iterations = 7
    ∧ (apply_budget_mode ("economy") 7 (some 123) (some (mkRat 3 2)) (some 4)).max_tokens = 123
    ∧ (apply_budget_mode ("economy") 7 (some 123) (some (mkRat 3 2)) (some 4)).max_cost = mkRat 3 2
    ∧ (apply_budget_mode ("economy") 7 (some 123) (some (mkRat 3 2)) (some 4)).checkpoint_interval = 4
    ∧ (apply_budget_mode ("quality") 10 none none none).max_iterations = 15
    ∧ (apply_budget_mode ("quality") 10 none none none).max_tokens = 100000 := by
  have h := C1_amended 7 (some 123) (some (mkRat 3 2)) (some 4) (by decide)
  exact ⟨h.1.1, h.2.2.1.1, h.2.2.2.1.1, h.2.2.2.2.1,
    (C1_amended 7 none none none (by decide)).2.1.2.2,
    (C1_amended 7 none none none (by decide)).2.2.1.2.2⟩

/-- C9.  Any unknown budget mode silently resolves against the balanced
preset (the `presets.get(mode, presets["balanced"])` fallback); the
constructor raises nothing, and explicit overrides still apply. -/
theorem C9_unknown_mode (mode : String) (mi : Int) (mt : Option Int) (mc : Option Rat)
    (ci : Option Int) (h1 : mode ≠ ("economy")) (h2 : mode ≠ ("balanced"))
    (h3 : mode ≠ ("quality")) :
    apply_budget_mode mode mi mt mc ci = apply_budget_mode ("balanced") mi mt mc ci := by
  unfold apply_budget_mode presets
  simp only [if_neg h1, if_neg h2, if_neg h3]
  rfl

/-- C9, witness at the unknown mode string `turbo`. -/
theorem C9_unknown_mode_witness :
    apply_budget_mode ("turbo") 7 (some 123) (some (mkRat 3 2)) (some 4)
      = apply_budget_mode ("balanced") 7 (some 123) (some (mkRat 3 2)) (some 4) :=
  C9_unknown_mode ("turbo") 7 (some 123) (some (mkRat 3 2)) (some 4)
    (by decide) (by decide) (by decide)

/-- C5.  The `_check_progress` contract: a first call reports progress,
stores the submission and leaves the streak untouched; a subsequent call
updates the streak from the similarity comparison, always stores the
current submission, and reports progress exactly while the updated streak
is below `max_no_progress`. -/
theorem C5_check_progress (wf : Workflow) (st0 st1 : RunState) (cur prev : String)
    (h0 : st0.previous_submission_text = none)
    (h1 : st1.previous_submission_text = some prev) :
    (check_progress wf st0 cur).1 = true
    ∧ (check_progress wf st0 cur).2.previous_submission_text = some cur
    ∧ (check_progress wf st0 cur).2.no_progress_count = st0.no_progress_count
    ∧ (check_progress wf st1 cur).2.no_progress_count
        = (if wf.early_stop_similarity ≤ calculate_similarity prev cur then
            st1.no_progress_count + 1
          else 0)
    ∧ (check_progress wf st1 cur).2.previous_submission_text = some cur
    ∧ ((check_progress wf st1 cur).1 = true
        ↔ (check_progress wf st1 cur).2.no_progress_count < wf.max_no_progress) := by
  refine ⟨by simp [check_progress, h0], by simp [check_progress, h0],
    by simp [check_progress, h0], by simp [check_progress, h1],
    by simp [check_progress, h1], ?_⟩
  simp [check_progress, h1]

/-- C5, witness: a first call on the reset state and a subsequent call on a
state holding `ab` with streak 2 (the identical resubmission pushes the
streak to 3 and, with `max_no_progress = 3`, reports stagnation). -/
theorem C5_check_progress_witness :
    (check_progress c5wf initialRunState ("ab")).1 = true
    ∧ (check_progress c5wf initialRunState ("ab")).2.previous_submission_text = some ("ab")
    ∧ (check_progress c5wf initialRunState ("ab")).2.no_progress_count = 0
    ∧ (check_progress c5wf c5st1 ("ab")).2.no_progress_count = 3
    ∧ (check_progress c5wf c5st1 ("ab")).2.previous_submission_text = some ("ab")
    ∧ (check_progress c5wf c5st1 ("ab")).1 = false := by
  have h := C5_check_progress c5wf initialRunState c5st1 ("ab") ("ab") rfl rfl
  refine ⟨h.1, h.2.1, h.2.2.1, ?_, h.2.2.2.2.1, ?_⟩
  · rw [h.2.2.2.1]; decide
  · decide

/-- C6.  `_check_approval` holds exactly when the uppercased reviewer text
contains the literal `[APPROVED]`; any casing of the bracketed marker,
anywhere in the text, is accepted; `approved` without brackets and the
empty text are rejected. -/
theorem C6_is_approved (s t u : String) (h : upper u = ("[APPROVED]")) :
    (∀ r : String, check_approval r = true ↔ ("[APPROVED]").data <:+: (upper r).data)
    ∧ check_approval (s ++ u ++ t) = true
    ∧ check_approval ("approved") = false
    ∧ check_approval ("") = false := by
  refine ⟨fun r => by simp [check_approval], ?_, by decide, by decide⟩
  have hdata : ∀ x y : String, (x ++ y).data = x.data ++ y.data := by
    intro x y; cases x; cases y; rfl
  have hu : (upper (s ++ u ++ t)).data
      = (upper s).data ++ (("[APPROVED]").data ++ (upper t).data) := by
    rw [← h]
    show ((s ++ u ++ t).data.map Char.toUpper) = _
    simp [upper, hdata, List.map_append, List.append_assoc]
  simp only [check_approval, hu, decide_eq_true_eq]
  exact ⟨(upper s).data, (upper t).data, by simp⟩

/-- C6, witness: the marker in lower case embedded in surrounding text. -/
theorem C6_is_approved_witness :
    check_approval (("ok ") ++ ("[approved]") ++ (" done")) = true
    ∧ check_approval ("approved") = false
    ∧ check_approval ("") = false := by
  have h := C6_is_approved ("ok ") (" done") ("[approved]") (by decide)
  exact ⟨h.2.1, h.2.2.1, h.2.2.2⟩

lemma development_loop_budget (wf : Workflow) (requirements : String) (fuel iterations : Nat)
    (phase : WorkflowPhase) (mfb prev : String) (st : RunState)
    (h : (check_budget_limits wf st).1 = true) :
    development_loop wf requirements (fuel + 1) iterations phase mfb prev st
      = ⟨iterations + 1, phase, (check_budget_limits wf st).2, prev, st⟩ := by
  rw [development_loop]
  simp [h]

lemma review_loop_budget (wf : Workflow) (fuel iterations : Nat) (prev : String)
    (st : RunState) (h : (check_budget_limits wf st).1 = true) :
    review_loop wf (fuel + 1) iterations prev st
      = ⟨iterations + 1, WorkflowPhase.review, (check_budget_limits wf st).2, prev, st⟩ := by
  rw [review_loop]
  simp [h]

lemma planning_loop_budget (wf : Workflow) (project : String) (fuel iterations : Nat)
    (mfb prev : String) (st : RunState) (h : (check_budget_limits wf st).1 = true) :
    planning_loop wf project (fuel + 1) iterations mfb prev st
      = ⟨iterations + 1, WorkflowPhase.planning, (check_budget_limits wf st).2, prev, st⟩ := by
  rw [planning_loop]
  simp [h]

lemma documentation_loop_budget (wf : Workflow) (topic doc_request : String)
    (fuel iterations : Nat) (phase : WorkflowPhase) (mfb prev : String) (st : RunState)
    (h : (check_budget_limits wf st).1 = true) :
    documentation_loop wf topic doc_request (fuel + 1) iterations phase mfb prev st
      = ⟨iterations + 1, phase, (check_budget_limits wf st).2, prev, st⟩ := by
  rw [documentation_loop]
  simp [h]

/-- C4.  `_check_budget_limits` tests tokens before cost (so a state
exceeding both ceilings reports `max_tokens`), and every loop entered with
a violated ceiling terminates at once — same iteration counter bump, same
run state, so no backend call, no recorded turn, no usage change — with the
corresponding stop reason. -/
theorem C4_budget_gate (wf wfc : Workflow) (st stc : RunState) (fuel iterations : Nat)
    (phase : WorkflowPhase) (mfb prev req proj topic dreq : String)
    (h1 : wf.max_tokens ≠ 0) (h2 : wf.max_tokens ≤ (st.total_tokens : Int))
    (h3 : wfc.max_cost ≠ 0) (h4 : wfc.max_cost ≤ stc.total_cost)
    (h5 : ¬ (wfc.max_tokens ≠ 0 ∧ wfc.max_tokens ≤ (stc.total_tokens : Int))) :
    check_budget_limits wf st = (true, ("max_tokens"))
    ∧ check_budget_limits wfc stc = (true, ("max_cost"))
    ∧ development_loop wf req (fuel + 1) iterations phase mfb prev st
        = ⟨iterations + 1, phase, ("max_tokens"), prev, st⟩
    ∧ review_loop wf (fuel + 1) iterations prev st
        = ⟨iterations + 1, WorkflowPhase.review, ("max_tokens"), prev, st⟩
    ∧ planning_loop wf proj (fuel + 1) iterations mfb prev st
        = ⟨iterations + 1, WorkflowPhase.planning, ("max_tokens"), prev, st⟩
    ∧ documentation_loop wf topic dreq (fuel + 1) iterations phase mfb prev st
        = ⟨iterations + 1, phase, ("max_tokens"), prev, st⟩
    ∧ planning_loop wfc proj (fuel + 1) iterations mfb prev stc
        = ⟨iterations + 1, WorkflowPhase.planning, ("max_cost"), prev, stc⟩ := by
  have ht : check_budget_limits wf st = (true, ("max_tokens")) := by
    simp [check_budget_limits, h1, h2]
  have hc : check_budget_limits wfc stc = (true, ("max_cost")) := by
    simp [check_budget_limits, h3, h4, h5]
  refine ⟨ht, hc, ?_, ?_, ?_, ?_, ?_⟩
  · rw [development_loop_budget wf req fuel iterations phase mfb prev st (by rw [ht]), ht]
  · rw [review_loop_budget wf fuel iterations prev st (by rw [ht]), ht]
  · rw [planning_loop_budget wf proj fuel iterations mfb prev st (by rw [ht]), ht]
  · rw [documentation_loop_budget wf topic dreq fuel iterations phase mfb prev st (by rw [ht]), ht]
  · rw [planning_loop_budget wfc proj fuel iterations mfb prev stc (by rw [hc]), hc]

/-- C4, witness: a token ceiling of 5 already consumed, and a cost ceiling
of 1 already consumed with the token ceiling disabled. -/
theorem C4_budget_gate_witness :
    check_budget_limits c4wfTok c4stTok = (true, ("max_tokens"))
    ∧ check_budget_limits c4wfCost c4stCost = (true, ("max_cost"))
    ∧ development_loop c4wfTok ("r") 1 0 WorkflowPhase.implementation ("f") ("p") c4stTok
        = ⟨1, WorkflowPhase.implementation, ("max_tokens"), ("p"), c4stTok⟩
    ∧ review_loop c4wfTok 1 0 ("p") c4stTok
        = ⟨1, WorkflowPhase.review, ("max_tokens"), ("p"), c4stTok⟩
    ∧ planning_loop c4wfTok ("j") 1 0 ("f") ("p") c4stTok
        = ⟨1, WorkflowPhase.planning, ("max_tokens"), ("p"), c4stTok⟩
    ∧ documentation_loop c4wfTok ("t") ("q") 1 0 WorkflowPhase.implementation ("f") ("p") c4stTok
        = ⟨1, WorkflowPhase.implementation, ("max_tokens"), ("p"), c4stTok⟩
    ∧ planning_loop c4wfCost ("j") 1 0 ("f") ("p") c4stCost
        = ⟨1, WorkflowPhase.planning, ("max_cost"), ("p"), c4stCost⟩ :=
  C4_budget_gate c4wfTok c4wfCost c4stTok c4stCost 0 0 WorkflowPhase.implementation
    ("f") ("p") ("r") ("j") ("t") ("q")
    (by decide) (by decide) (by decide) (by decide) (by decide)

lemma finish_consistent (e : LoopExit)
    (h : e.phase = WorkflowPhase.approved ↔ e.reason = ("approved")) :
    ((finish e).success = true ↔ (finish e).phase = WorkflowPhase.approved)
    ∧ ((finish e).phase = WorkflowPhase.approved
      ↔ (finish e).stopped_reason = ("approved")) := by
  constructor
  · simp [finish]
  · simp only [finish]
    by_cases hr : e.reason = ("")
    · rw [if_pos hr]
      constructor
      · intro hp
        have hx := h.1 hp
        rw [hr] at hx
        simp at hx
      · intro hm
        simp at hm
    · rw [if_neg hr]
      exact h

lemma finish_reason_mem (e : LoopExit)
    (h : e.reason = ("") ∨ e.reason = ("approved") ∨ e.reason = ("no_progress")
      ∨ e.reason = ("user_stopped")) :
    (finish e).stopped_reason
      ∈ [("approved"), ("no_progress"), ("user_stopped"), ("max_iterations")] := by
  simp only [finish]
  rcases h with h | h | h | h <;> simp [h]

/-- C8.  For every run of each of the four entry points the Outcome is
internally consistent: `success` holds iff the terminal phase is
`approved` iff the stop reason is `approved`. -/
theorem C8_outcome_consistency (wf : Workflow) (req code ctx proj topic : String) :
    (((run_development wf req).success = true
        ↔ (run_development wf req).phase = WorkflowPhase.approved)
      ∧ ((run_development wf req).phase = WorkflowPhase.approved
        ↔ (run_development wf req).stopped_reason = ("approved")))
    ∧ (((run_review wf code ctx).success = true
        ↔ (run_review wf code ctx).phase = WorkflowPhase.approved)
      ∧ ((run_review wf code ctx).phase = WorkflowPhase.approved
        ↔ (run_review wf code ctx).stopped_reason = ("approved")))
    ∧ (((run_planning wf proj).success = true
        ↔ (run_planning wf proj).phase = WorkflowPhase.approved)
      ∧ ((run_planning wf proj).phase = WorkflowPhase.approved
        ↔ (run_planning wf proj).stopped_reason = ("approved")))
    ∧ (((run_documentation wf topic ctx).success = true
        ↔ (run_documentation wf topic ctx).phase = WorkflowPhase.approved)
      ∧ ((run_documentation wf topic ctx).phase = WorkflowPhase.approved
        ↔ (run_documentation wf topic ctx).stopped_reason = ("approved"))) := by
  refine ⟨?_, ?_, ?_, ?_⟩
  · simp only [run_development]
    exact finish_consistent _ ((development_loop_spec wf req _ _ _ _ _ _).1 (by decide))
  · simp only [run_review]
    exact finish_consistent _ ((review_loop_spec wf _ _ _ _).1)
  · simp only [run_planning]
    exact finish_consistent _ ((planning_loop_spec wf proj _ _ _ _ _).1)
  · simp only [run_documentation]
    exact finish_consistent _ ((documentation_loop_spec wf topic _ _ _ _ _ _ _).1 (by decide))

/-- C2, counterexample.  In `run_review` with a never-approving reviewer
and `max_iterations = 2`, the recorded transcript is
manager, developer, manager, developer: the first two turns are the
unconditional initial exchange and the loop iteration (iteration 2)
records the reviewer's turn *before* the producer's turn, contradicting
the claimed uniform producer-first per-iteration order. -/
theorem C2_counterexample :
    (run_review c2wf ("print(1)") ("")).iterations = 2
    ∧ (run_review c2wf ("print(1)") ("")).conversation_history.map (fun t => t.role)
      = [("manager"), ("developer"), ("manager"), ("developer")]
    ∧ (run_review c2wf ("print(1)") ("")).stopped_reason = ("max_iterations") := by
  refine ⟨by decide, by decide, by decide⟩

/-- C2, amended.  The producer-before-reviewer per-iteration order holds
for the Development, Planning and Documentation flavors — their
transcripts alternate roles starting with the producer — but in the
CodeReview flavor both the initial exchange and every loop iteration
invoke the reviewer first, so its transcript alternates starting with the
reviewer. -/
theorem C2_amended (wf : Workflow) (req code ctx proj topic : String) :
    altFrom ("developer") ("manager") (run_development wf req).conversation_history = true
    ∧ altFrom ("developer") ("manager") (run_planning wf proj).conversation_history = true
    ∧ altFrom ("developer") ("manager")
        (run_documentation wf topic ctx).conversation_history = true
    ∧ altFrom ("manager") ("developer") (run_review wf code ctx).conversation_history = true := by
  refine ⟨?_, ?_, ?_, ?_⟩
  · obtain ⟨ext, hh, halt⟩ := (development_loop_spec wf req _ _ _ _ _ _).2.2.1
    simp only [run_development, finish]
    rw [hh]
    simp [add_turn, track_usage, initialRunState, altFrom, halt]
  · obtain ⟨ext, hh, halt⟩ := (planning_loop_spec wf proj _ _ _ _ _).2.2
    simp only [run_planning, finish]
    rw [hh]
    simp [initialRunState, halt]
  · obtain ⟨ext, hh, halt⟩ := (documentation_loop_spec wf topic _ _ _ _ _ _ _).2.2
    simp only [run_documentation, finish]
    rw [hh]
    simp [initialRunState, halt]
  · obtain ⟨ext, hh, halt⟩ := (review_loop_spec wf _ _ _ _).2.2
    simp only [run_review, finish]
    rw [hh]
    simp [add_turn, track_usage, initialRunState, altFrom, halt]

/-- C3, counterexample.  A `run_planning` execution that stops with
`no_progress` whose final artifact `ab` is not the producer's newest
submission `ac` (the stagnating submission is recorded in the transcript
but not stored as the latest submission). -/
theorem C3_counterexample :
    (run_planning c3wf ("p")).stopped_reason = ("no_progress")
    ∧ (run_planning c3wf ("p")).final_output = ("ab")
    ∧ ((run_planning c3wf ("p")).conversation_history.map (fun t => t.content)).getLast?
      = some ("ac")
    ∧ ((run_planning c3wf ("p")).conversation_history.map (fun t => t.role)).getLast?
      = some ("developer")
    ∧ (("ab") : String) ≠ ("ac") := by
  refine ⟨by decide, by decide, by decide, by decide, by decide⟩

/-- C3, amended.  Only the Development flavor stores the triggering
submission before a `no_progress` stop: whenever `run_development`
terminates with `no_progress`, the last recorded turn is the producer's
and the final artifact equals its content.  (The other three flavors keep
the previous submission instead, as the counterexample shows.) -/
theorem C3_amended (wf : Workflow) (requirements : String)
    (h : (run_development wf requirements).stopped_reason = ("no_progress")) :
    ∃ t : ConversationTurn,
      (run_development wf requirements).conversation_history.getLast? = some t
      ∧ t.role = ("developer")
      ∧ (run_development wf requirements).final_output = t.content := by
  simp only [run_development, finish] at h ⊢
  split at h
  · simp at h
  · exact (development_loop_spec wf requirements _ _ _ _ _ _).2.2.2 h

/-- C3, witness for the amended theorem: a producer that repeats `xx`
drives `run_development` into a `no_progress` stop. -/
theorem C3_amended_witness :
    (run_development c3devwf ("req")).stopped_reason = ("no_progress")
    ∧ ∃ t : ConversationTurn,
        (run_development c3devwf ("req")).conversation_history.getLast? = some t
        ∧ t.role = ("developer")
        ∧ (run_development c3devwf ("req")).final_output = t.content :=
  ⟨by decide, C3_amended c3devwf ("req") (by decide)⟩

/-- C10.  A zero `max_tokens` never yields the `max_tokens` stop reason
and a zero `max_cost` never yields `max_cost` (Python truthiness treats 0
as unconfigured), and a run whose two budget ceilings are both zero can
only stop with `approved`, `no_progress`, `user_stopped` or
`max_iterations`. -/
theorem C10_zero_limits (wf wfa wfb : Workflow) (sta stb : RunState)
    (req code ctx proj topic : String)
    (ha : wfa.max_tokens = 0) (hb2 : wfb.max_cost = 0)
    (h1 : wf.max_tokens = 0) (h2 : wf.max_cost = 0) :
    (check_budget_limits wfa sta).2 ≠ ("max_tokens")
    ∧ (check_budget_limits wfb stb).2 ≠ ("max_cost")
    ∧ (run_development wf req).stopped_reason
      ∈ [("approved"), ("no_progress"), ("user_stopped"), ("max_iterations")]
    ∧ (run_review wf code ctx).stopped_reason
      ∈ [("approved"), ("no_progress"), ("user_stopped"), ("max_iterations")]
    ∧ (run_planning wf proj).stopped_reason
      ∈ [("approved"), ("no_progress"), ("user_stopped"), ("max_iterations")]
    ∧ (run_documentation wf topic ctx).stopped_reason
      ∈ [("approved"), ("no_progress"), ("user_stopped"), ("max_iterations")] := by
  refine ⟨?_, ?_, ?_, ?_, ?_, ?_⟩
  · unfold check_budget_limits
    split
    · rename_i hcond
      exact absurd hcond.1 (by simp [ha])
    · split <;> simp
  · unfold check_budget_limits
    split
    · simp
    · split
      · rename_i hcond
        exact absurd hcond.1 (by simp [hb2])
      · simp
  · simp only [run_development]
    exact finish_reason_mem _ ((development_loop_spec wf req _ _ _ _ _ _).2.1 h1 h2)
  · simp only [run_review]
    exact finish_reason_mem _ ((review_loop_spec wf _ _ _ _).2.1 h1 h2)
  · simp only [run_planning]
    exact finish_reason_mem _ ((planning_loop_spec wf proj _ _ _ _ _).2.1 h1 h2)
  · simp only [run_documentation]
    exact finish_reason_mem _ ((documentation_loop_spec wf topic _ _ _ _ _ _ _).2.1 h1 h2)

/-- C10, witness: a workflow with both ceilings zero. -/
theorem C10_zero_limits_witness :
    (check_budget_limits c10wf initialRunState).2 ≠ ("max_tokens")
    ∧ (check_budget_limits c10wf initialRunState).2 ≠ ("max_cost")
    ∧ (run_development c10wf ("r")).stopped_reason
      ∈ [("approved"), ("no_progress"), ("user_stopped"), ("max_iterations")]
    ∧ (run_review c10wf ("c") ("")).stopped_reason
      ∈ [("approved"), ("no_progress"), ("user_stopped"), ("max_iterations")]
    ∧ (run_planning c10wf ("p")).stopped_reason
      ∈ [("approved"), ("no_progress"), ("user_stopped"), ("max_iterations")]
    ∧ (run_documentation c10wf ("t") ("")).stopped_reason
      ∈ [("approved"), ("no_progress"), ("user_stopped"), ("max_iterations")] :=
  C10_zero_limits c10wf c10wf c10wf initialRunState initialRunState
    ("r") ("c") ("") ("p") ("t") (by decide) (by decide) (by decide) (by decide)

/-- C7.  The planning end-to-end scenario: producer always `plan v1`,
reviewer always `needs more detail`, explicit `max_iterations = 3`,
balanced defaults otherwise; the run exhausts its three iterations and
returns the unapproved plan. -/
theorem C7_planning_scenario :
    (run_planning c7wf ("build a todo app")).iterations = 3
    ∧ (run_planning c7wf ("build a todo app")).success = false
    ∧ (run_planning c7wf ("build a todo app")).stopped_reason = ("max_iterations")
    ∧ (run_planning c7wf ("build a todo app")).final_output = ("plan v1") := by
  refine ⟨by decide, by decide, by decide, by decide⟩

end AiCollab
